import Mathlib

/-!
Verification of the keyboard layout generator (`generate_toml.py`).

The script is a straight-line construction of a list of key records
followed by serialization under a single top-level field `key`.  All
coordinates are Python floats, but every value produced is a multiple of
0.5 well inside the exactly-representable range, so the arithmetic is
exact and is embedded here over `ℚ`.
-/

namespace KbdOsd

/-- One physical key, mirroring the dict built by `add_key`:
name, left, top, width, height, keycode. -/
structure KeyRecord where
  name : String
  left : ℚ
  top : ℚ
  width : ℚ
  height : ℚ
  keycode : String
deriving DecidableEq, Repr

/-- `add_key` builds one record from its six arguments. -/
def mkKey (name : String) (left top width height : ℚ) (keycode : String) : KeyRecord :=
  ⟨name, left, top, width, height, keycode⟩

/-- 1U size (`u = 50.0`). -/
def u : ℚ := 50.0

/-- spacing (`s = 5.0`). -/
def s : ℚ := 5.0

def w_1u : ℚ := u
def w_1_25u : ℚ := 1.25 * u
def w_1_5u : ℚ := 1.5 * u
def w_1_75u : ℚ := 1.75 * u
def w_2u : ℚ := 2.0 * u
def w_2_25u : ℚ := 2.25 * u
def w_2_75u : ℚ := 2.75 * u
def w_6_25u : ℚ := 6.25 * u
def h_1u : ℚ := u

/-- Row top coordinates. -/
def top_fn_row : ℚ := 0.0
def top_num_row : ℚ := top_fn_row + h_1u + s
def top_qwerty_row : ℚ := top_num_row + h_1u + s
def top_asdf_row : ℚ := top_qwerty_row + h_1u + s
def top_zxcv_row : ℚ := top_asdf_row + h_1u + s
def top_bottom_row : ℚ := top_zxcv_row + h_1u + s

/-- The F-key name list from the source. -/
def f_keys : List String :=
  ["F1", "F2", "F3", "F4", "F5", "F6", "F7", "F8", "F9", "F10", "F11", "F12"]

/-- Python `str.lower()` as applied to the ASCII F-key names:
lowercase every character. -/
def lower (t : String) : String := ⟨t.data.map Char.toLower⟩

/-- The `for i, f_key_name in enumerate(f_keys)` loop: each key is 1U at
`top_fn_row`, keycode is the lowercased name, the running x advances by
`w_1u + s`, with an extra 25.0 after indices 3 and 7 (F4 and F8). -/
def buildFKeys : List (Nat × String) → ℚ → List KeyRecord
  | [], _ => []
  | (i, nm) :: rest, x =>
    mkKey nm x top_fn_row w_1u h_1u (lower nm) ::
      buildFKeys rest (x + w_1u + s + (if i = 3 ∨ i = 7 then 25.0 else 0))

/-- Function row: Esc at x = 0, then `current_x += w_1u + s + 25.0`
(extra 25 gap) before the F-key loop. -/
def fn_row : List KeyRecord :=
  mkKey "Esc" 0.0 top_fn_row w_1u h_1u "esc" ::
    buildFKeys f_keys.enum (0.0 + w_1u + s + 25.0)

/-- The per-row loop shared by the five non-function rows: for each
`(name, keycode, width)` triple emit a key at the running x, then advance
by `width + s`. -/
def buildRow (top : ℚ) : List (String × String × ℚ) → ℚ → List KeyRecord
  | [], _ => []
  | (nm, kc, width) :: rest, x =>
    mkKey nm x top width h_1u kc :: buildRow top rest (x + width + s)

def num_row_keys : List (String × String × ℚ) :=
  [("`", "grave", w_1u), ("1", "1", w_1u), ("2", "2", w_1u), ("3", "3", w_1u),
   ("4", "4", w_1u), ("5", "5", w_1u), ("6", "6", w_1u), ("7", "7", w_1u),
   ("8", "8", w_1u), ("9", "9", w_1u), ("0", "0", w_1u), ("-", "minus", w_1u),
   ("=", "equal", w_1u), ("Backspace", "backspace", w_2u)]

def num_row : List KeyRecord := buildRow top_num_row num_row_keys 0.0

def qwerty_row_keys : List (String × String × ℚ) :=
  [("Tab", "tab", w_1_5u), ("Q", "q", w_1u), ("W", "w", w_1u), ("E", "e", w_1u),
   ("R", "r", w_1u), ("T", "t", w_1u), ("Y", "y", w_1u), ("U", "u", w_1u),
   ("I", "i", w_1u), ("O", "o", w_1u), ("P", "p", w_1u), ("[", "leftbrace", w_1u),
   ("]", "rightbrace", w_1u), ("\\", "backslash", w_1_5u)]

def qwerty_row : List KeyRecord := buildRow top_qwerty_row qwerty_row_keys 0.0

def asdf_row_keys : List (String × String × ℚ) :=
  [("Caps Lock", "capslock", w_1_75u), ("A", "a", w_1u), ("S", "s", w_1u),
   ("D", "d", w_1u), ("F", "f", w_1u), ("G", "g", w_1u), ("H", "h", w_1u),
   ("J", "j", w_1u), ("K", "k", w_1u), ("L", "l", w_1u), (";", "semicolon", w_1u),
   ("\x27", "apostrophe", w_1u), ("Enter", "enter", w_2_25u)]

def asdf_row : List KeyRecord := buildRow top_asdf_row asdf_row_keys 0.0

def zxcv_row_keys : List (String × String × ℚ) :=
  [("Shift", "leftshift", w_2_25u), ("Z", "z", w_1u), ("X", "x", w_1u),
   ("C", "c", w_1u), ("V", "v", w_1u), ("B", "b", w_1u), ("N", "n", w_1u),
   ("M", "m", w_1u), (",", "comma", w_1u), (".", "dot", w_1u),
   ("/", "slash", w_1u), ("Shift", "rightshift", w_2_75u)]

def zxcv_row : List KeyRecord := buildRow top_zxcv_row zxcv_row_keys 0.0

def bottom_row_keys : List (String × String × ℚ) :=
  [("Ctrl", "leftctrl", w_1_25u), ("Super", "leftmeta", w_1_25u),
   ("Alt", "leftalt", w_1_25u), ("Space", "space", w_6_25u),
   ("Alt", "rightalt", w_1_25u), ("Super", "rightmeta", w_1_25u),
   ("Menu", "menu", w_1_25u), ("Ctrl", "rightctrl", w_1_25u)]

def bottom_row : List KeyRecord := buildRow top_bottom_row bottom_row_keys 0.0

/-- Hardcoded right edge of the main block (source comment: Backspace ends
at 715 + 100 = 815). -/
def main_block_max_x : ℚ := 815.0

def nav_cluster_start_x : ℚ := main_block_max_x + s + 25.0

/-- The nine navigation-cluster `add_key` calls, in source order. -/
def nav_cluster : List KeyRecord :=
  [mkKey "Print Screen" nav_cluster_start_x top_fn_row w_1u h_1u "printscreen",
   mkKey "Scroll Lock" (nav_cluster_start_x + w_1u + s) top_fn_row w_1u h_1u "scrolllock",
   mkKey "Pause" (nav_cluster_start_x + (w_1u + s) * 2) top_fn_row w_1u h_1u "pause",
   mkKey "Ins" nav_cluster_start_x top_num_row w_1u h_1u "insert",
   mkKey "Home" (nav_cluster_start_x + w_1u + s) top_num_row w_1u h_1u "home",
   mkKey "PgUp" (nav_cluster_start_x + (w_1u + s) * 2) top_num_row w_1u h_1u "pageup",
   mkKey "Del" nav_cluster_start_x top_qwerty_row w_1u h_1u "delete",
   mkKey "End" (nav_cluster_start_x + w_1u + s) top_qwerty_row w_1u h_1u "end",
   mkKey "PgDn" (nav_cluster_start_x + (w_1u + s) * 2) top_qwerty_row w_1u h_1u "pagedown"]

def arrow_up_x : ℚ := nav_cluster_start_x + w_1u + s
def arrow_bottom_y : ℚ := top_bottom_row
def arrow_up_y : ℚ := arrow_bottom_y - h_1u - s

/-- The four arrow-key `add_key` calls, in source order. -/
def arrow_keys : List KeyRecord :=
  [mkKey "Up" arrow_up_x arrow_up_y w_1u h_1u "up",
   mkKey "Left" nav_cluster_start_x arrow_bottom_y w_1u h_1u "left",
   mkKey "Down" arrow_up_x arrow_bottom_y w_1u h_1u "down",
   mkKey "Right" (arrow_up_x + w_1u + s) arrow_bottom_y w_1u h_1u "right"]

/-- The global `keys` list in append order. -/
def keys : List KeyRecord :=
  fn_row ++ num_row ++ qwerty_row ++ asdf_row ++ zxcv_row ++ bottom_row ++
    nav_cluster ++ arrow_keys

/-- `toml_data = {"key": keys}`: an association list with the single
top-level field. -/
def toml_data : List (String × List KeyRecord) := [("key", keys)]

/-- The whole generator as a function of its (empty) input. -/
def generate : Unit → List (String × List KeyRecord) := fun _ => toml_data

/-- Right edge (`left + width`) of the first record in `keys` with the given
keycode (0 if absent). -/
def rightEdge (kc : String) : ℚ :=
  ((keys.find? (fun k => decide (k.keycode = kc))).map (fun k => k.left + k.width)).getD 0

/-- For each adjacent pair of records, the horizontal gap
`left[i+1] - (left[i] + width[i])`; the gap equals `g` exactly when
`left[i+1] = left[i] + width[i] + g`. -/
def adjacentGaps : List KeyRecord → List ℚ
  | a :: b :: rest => (b.left - (a.left + a.width)) :: adjacentGaps (b :: rest)
  | _ => []

/-- Two key rectangles overlap: both horizontal extents and both vertical
extents intersect as open intervals. -/
def overlaps (a b : KeyRecord) : Prop :=
  a.left < b.left + b.width ∧ b.left < a.left + a.width ∧
  a.top < b.top + b.height ∧ b.top < a.top + a.height

instance (a b : KeyRecord) : Decidable (overlaps a b) := by
  unfold overlaps; infer_instance

/-- The open rectangle a key covers in the plane. -/
def rect (k : KeyRecord) : Set (ℚ × ℚ) :=
  Set.Ioo k.left (k.left + k.width) ×ˢ Set.Ioo k.top (k.top + k.height)

end KbdOsd

namespace KbdOsd

attribute [local semireducible] Rat.add Rat.mul Rat.sub Rat.inv Rat.ofScientific

set_option maxRecDepth 100000

/-- If two keys do not `overlaps`, their open rectangles have empty
intersection. -/
theorem rect_inter_empty_of_not_overlaps (a b : KeyRecord) (h : ¬ overlaps a b) :
    rect a ∩ rect b = ∅ := by
  unfold overlaps at h
  push_neg at h
  apply Set.eq_empty_iff_forall_not_mem.mpr
  rintro ⟨x, y⟩ ⟨ha, hb⟩
  simp only [rect, Set.mem_prod, Set.mem_Ioo] at ha hb
  obtain ⟨⟨hax1, hax2⟩, hay1, hay2⟩ := ha
  obtain ⟨⟨hbx1, hbx2⟩, hby1, hby2⟩ := hb
  exact absurd (lt_trans hby1 hay2)
    (not_lt.mpr (h (lt_trans hax1 hbx2) (lt_trans hbx1 hax2) (lt_trans hay1 hby2)))

/-- No two distinct records in `keys` overlap. -/
theorem keys_pairwise_not_overlapping :
    keys.Pairwise (fun a b => ¬ overlaps a b) := by decide

/-- Claim C1 as stated is false: the emitted collection has 87 records, not
89, and the function row has 13 records (Esc plus F1 through F12), not 15. -/
theorem key_count_claim_false : keys.length ≠ 89 ∧ fn_row.length ≠ 15 := by decide

/-- Claim C1 (amended): the total number of emitted records is 87, composed
of 13 for the function row (including Esc), 14 for the number row, 14 for
the qwerty row, 13 for the home row, 12 for the bottom-letter row, 8 for the
bottom/modifier row, 9 for the navigation cluster, and 4 for the arrow
cluster. -/
theorem key_count :
    keys.length = 87 ∧ fn_row.length = 13 ∧ num_row.length = 14 ∧
    qwerty_row.length = 14 ∧ asdf_row.length = 13 ∧ zxcv_row.length = 12 ∧
    bottom_row.length = 8 ∧ nav_cluster.length = 9 ∧ arrow_keys.length = 4 := by decide

/-- Claim C2: the navigation cluster's horizontal origin is 815 + 5 + 25 =
845, where 815 is the maximum of the right edges of the Backspace, Enter and
right-Shift records; the three columns sit at offsets (u + s) * 0, 1, 2
(that is 0, 55, 110) from this origin, and the three rows reuse the
function, number and qwerty row tops. -/
theorem nav_cluster_placement :
    nav_cluster_start_x = main_block_max_x + s + 25.0 ∧
    nav_cluster_start_x = 845 ∧
    main_block_max_x =
      max (rightEdge "backspace") (max (rightEdge "enter") (rightEdge "rightshift")) ∧
    main_block_max_x = 815 ∧
    nav_cluster.map KeyRecord.left =
      [nav_cluster_start_x + (u + s) * 0, nav_cluster_start_x + (u + s) * 1,
       nav_cluster_start_x + (u + s) * 2, nav_cluster_start_x + (u + s) * 0,
       nav_cluster_start_x + (u + s) * 1, nav_cluster_start_x + (u + s) * 2,
       nav_cluster_start_x + (u + s) * 0, nav_cluster_start_x + (u + s) * 1,
       nav_cluster_start_x + (u + s) * 2] ∧
    nav_cluster.map KeyRecord.left = [845, 900, 955, 845, 900, 955, 845, 900, 955] ∧
    nav_cluster.map KeyRecord.top =
      [top_fn_row, top_fn_row, top_fn_row, top_num_row, top_num_row, top_num_row,
       top_qwerty_row, top_qwerty_row, top_qwerty_row] := by decide

/-- Claim C3: in every one of the six main rows each adjacent pair of
records satisfies left[i+1] = left[i] + width[i] + 5.0 (gap exactly s),
except the function row where the gap after positions 0, 4 and 8 (after
Esc, F4 and F8) is s + 25; consequently the left values in each row are
strictly increasing. -/
theorem row_adjacency :
    adjacentGaps fn_row = [s + 25, s, s, s, s + 25, s, s, s, s + 25, s, s, s] ∧
    adjacentGaps num_row = List.replicate 13 s ∧
    adjacentGaps qwerty_row = List.replicate 13 s ∧
    adjacentGaps asdf_row = List.replicate 12 s ∧
    adjacentGaps zxcv_row = List.replicate 11 s ∧
    adjacentGaps bottom_row = List.replicate 7 s ∧
    List.Pairwise (fun a b => a.left < b.left) fn_row ∧
    List.Pairwise (fun a b => a.left < b.left) num_row ∧
    List.Pairwise (fun a b => a.left < b.left) qwerty_row ∧
    List.Pairwise (fun a b => a.left < b.left) asdf_row ∧
    List.Pairwise (fun a b => a.left < b.left) zxcv_row ∧
    List.Pairwise (fun a b => a.left < b.left) bottom_row := by decide

/-- Claim C4: the six main row tops are 0, 55, 110, 165, 220, 275, each row
equal to the previous plus u + s = 55, starting at 0. -/
theorem row_tops :
    [top_fn_row, top_num_row, top_qwerty_row, top_asdf_row, top_zxcv_row, top_bottom_row] =
      [0, 55, 110, 165, 220, 275] ∧
    top_fn_row = 0 ∧
    top_num_row = top_fn_row + (u + s) ∧
    top_qwerty_row = top_num_row + (u + s) ∧
    top_asdf_row = top_qwerty_row + (u + s) ∧
    top_zxcv_row = top_asdf_row + (u + s) ∧
    top_bottom_row = top_zxcv_row + (u + s) ∧
    u + s = 55 := by decide

/-- Claim C5: the first function-row record is exactly the Esc key at
(0, 0) with width and height 50 and keycode esc; the second (F1) has
left = 50 + 5 + 25 = 80, top 0, width 50, keycode f1; and the extra 25-unit
gap occurs exactly after row position 0 (Esc) and after F-key indices 3 and
7 (F4, F8), nowhere else. -/
theorem fn_row_literals :
    fn_row.get? 0 = some (mkKey "Esc" 0.0 0.0 50.0 50.0 "esc") ∧
    fn_row.get? 1 = some (mkKey "F1" (50.0 + 5.0 + 25.0) 0.0 50.0 50.0 "f1") ∧
    (fn_row.get? 1).map KeyRecord.left = some 80 ∧
    adjacentGaps fn_row =
      [s + 25.0, s, s, s, s + 25.0, s, s, s, s + 25.0, s, s, s] := by decide

/-- Claim C6: Up has keycode up, sits at the navigation cluster's middle
column x with top = bottom row top - 55; Left sits at the cluster's left
column x; Down sits at the middle column x and Right at middle column x +
u + s; Left, Down and Right all share the bottom row's top. -/
theorem arrow_cluster_placement :
    arrow_keys.map (fun k => (k.keycode, k.left, k.top)) =
      [("up", arrow_up_x, top_bottom_row - 55),
       ("left", nav_cluster_start_x, top_bottom_row),
       ("down", arrow_up_x, top_bottom_row),
       ("right", arrow_up_x + u + s, top_bottom_row)] ∧
    (nav_cluster.get? 1).map KeyRecord.left = some arrow_up_x ∧
    (nav_cluster.get? 0).map KeyRecord.left = some nav_cluster_start_x := by decide

/-- Claim C7: the generator takes no input, so any two runs produce the same
ordered record collection, and hence any serialization function produces the
same output for both runs. -/
theorem generator_deterministic :
    ∀ (a b : Unit), generate a = generate b ∧
      ∀ f : List (String × List KeyRecord) → String, f (generate a) = f (generate b) :=
  fun _ _ => ⟨rfl, fun _ => rfl⟩

/-- Claim C8: the serialized data has exactly one top-level field, named
key, holding the record collection, and every record (each carrying exactly
the six fields of `KeyRecord`) has positive width and height, with height
equal to 50. -/
theorem output_shape :
    toml_data.map Prod.fst = ["key"] ∧ toml_data.map Prod.snd = [keys] ∧
    h_1u = 50 ∧
    ∀ k ∈ keys, 0 < k.width ∧ 0 < k.height ∧ k.height = h_1u := by decide

/-- Claim C9: all 87 emitted records carry pairwise distinct keycodes. -/
theorem keycodes_distinct : (keys.map KeyRecord.keycode).Nodup := by decide

/-- Claim C10: the open rectangles of any two distinct emitted records are
disjoint, across the main block, the navigation cluster and the arrow
cluster. -/
theorem keys_geometrically_disjoint :
    keys.Pairwise (fun a b => rect a ∩ rect b = ∅) :=
  keys_pairwise_not_overlapping.imp
    (fun h => rect_inter_empty_of_not_overlaps _ _ h)

end KbdOsd
